import Mathlib

/-!
Verification development for the gogame-term repository (a terminal Go
client driving a GTP engine).  The definitions below are a shallow
embedding of the Rust sources:

* `src/core/entities.rs`  — `StoneColor`, `Stone`, `Coords`, `OptCoords`;
* `src/core/helpers.rs`   — `get_column_name`, `get_column_number`;
* `src/gogame/board.rs` and `src/view/board/board_table.rs`
                          — `gen_star_points` / `make_star_points`;
* `src/view/board/board_controller.rs` — `parse_input_coords` and the
  actix commit handler;
* `src/view/board/board_table.rs` — the board-state store actor;
* `src/gogame/gogame.rs`  — the iced `update` state machine and the
  `play_move` / `gen_next_move` engine chains.

Machine integers (`u8`) are modelled as `Nat` with explicit `% 256`
where the Rust code can wrap (release-build two's-complement wrapping
semantics); `Vec` is `List`; fallible code returns `Option`/`Except`.
-/

namespace GogameTerm

/-- Stone colour, from `src/core/entities.rs` (`StoneColor`). -/
inductive StoneColor
  | white
  | black
deriving DecidableEq, Repr

/-- `StoneColor::inverse` from `src/core/entities.rs`. -/
def StoneColor.inverse : StoneColor → StoneColor
  | .white => .black
  | .black => .white

/-- A placed stone, from `src/core/entities.rs` (`Stone`); `row`/`col` are `u8`. -/
structure Stone where
  color : StoneColor
  row : ℕ
  col : ℕ
deriving DecidableEq, Repr

/-- A fully specified position, from `src/core/entities.rs` (`Coords`). -/
structure Coords where
  row : ℕ
  col : ℕ
deriving DecidableEq, Repr

/-- `Coords::from(row, col)` from `src/core/entities.rs`. -/
def Coords.from' (row col : ℕ) : Coords := ⟨row, col⟩

/-- A partially specified position, from `src/core/entities.rs` (`OptCoords`). -/
structure OptCoords where
  row : Option ℕ
  col : Option ℕ
deriving DecidableEq, Repr

/-- `OptCoords` default: both fields `None` (`impl Default for OptCoords`). -/
def OptCoords.default : OptCoords := ⟨none, none⟩

/-- `TryFrom<&OptCoords> for Coords` from `src/core/entities.rs`: succeeds
exactly when both fields are present. -/
def OptCoords.tryIntoCoords : OptCoords → Option Coords
  | ⟨some row, some col⟩ => some (Coords.from' row col)
  | _ => none

/-- `get_column_name` from `src/core/helpers.rs`:
`(64u8 + col + add) as char` with `add = 1` when `col >= 9` (skips `I`).
The `u8` addition is modelled with an explicit `% 256`. -/
def get_column_name (col : ℕ) : Char :=
  let add : ℕ := if 9 ≤ col then 1 else 0
  Char.ofNat ((64 + col + add) % 256)

/-- `get_column_number` from `src/core/helpers.rs`:
`col_nr = col as u8 - 64u8` then subtract one when `col_nr >= 9`.
The `u8` cast and subtraction are modelled with wrapping (`+ 192 ≡ - 64`
mod `256`); the second subtraction never underflows. -/
def get_column_number (col : Char) : ℕ :=
  let colNr : ℕ := (col.toNat + 192) % 256
  let remove : ℕ := if 9 ≤ colNr then 1 else 0
  colNr - remove

/-- `gen_star_points` from `src/gogame/board.rs`: margin 4 when the board
size is at least 13 (else 3), four corner points, the middle point, and
four extra edge-middle points when the size is at least 19.  `board_size`
is a `u8`; for `3 ≤ board_size` none of the subtractions underflow. -/
def gen_star_points (board_size : ℕ) : List Coords :=
  let margin : ℕ := if 13 ≤ board_size then 4 else 3
  let middle : ℕ := board_size / 2
  let points : List Coords :=
    [Coords.from' margin margin,
     Coords.from' margin (board_size - margin + 1),
     Coords.from' (board_size - margin + 1) margin,
     Coords.from' (board_size - margin + 1) (board_size - margin + 1),
     Coords.from' middle middle]
  if 19 ≤ board_size then
    points ++
      [Coords.from' margin middle,
       Coords.from' (board_size - margin + 1) middle,
       Coords.from' middle margin,
       Coords.from' middle (board_size - margin + 1)]
  else
    points

/-- `BoardTableActor::make_star_points` from `src/view/board/board_table.rs`;
its body is textually identical to `gen_star_points` in `src/gogame/board.rs`. -/
def make_star_points (board_size : ℕ) : List Coords :=
  let margin : ℕ := if 13 ≤ board_size then 4 else 3
  let middle : ℕ := board_size / 2
  let points : List Coords :=
    [Coords.from' margin margin,
     Coords.from' margin (board_size - margin + 1),
     Coords.from' (board_size - margin + 1) margin,
     Coords.from' (board_size - margin + 1) (board_size - margin + 1),
     Coords.from' middle middle]
  if 19 ≤ board_size then
    points ++
      [Coords.from' margin middle,
       Coords.from' (board_size - margin + 1) middle,
       Coords.from' middle margin,
       Coords.from' middle (board_size - margin + 1)]
  else
    points

/-- Rust's `str::parse::<u8>()` (`u8::from_str`), returning `none` on error:
an optional single leading `+`, then one or more ASCII digits, value at
most 255 (overflow is an error).  A leading `-` or any other character is
an error. -/
def parseU8 (s : String) : Option ℕ :=
  let ds : List Char :=
    match s.toList with
    | '+' :: rest => rest
    | other => other
  if ds = [] then none
  else if ds.all Char.isDigit then
    let v : ℕ := ds.foldl (fun a c => a * 10 + (c.toNat - 48)) 0
    if v ≤ 255 then some v else none
  else none

/-- `parse_input_coords` from `src/view/board/board_controller.rs`:
`input.remove(0)` supplies the column letter (when the string is
non-empty), the remaining characters are parsed as a `u8` row
(`input.parse().ok()`), and no board-size validation is performed. -/
def parse_input_coords (input : String) : OptCoords :=
  match input.toList with
  | [] => { row := none, col := none }
  | c :: rest =>
    { row := if rest.isEmpty then none else parseU8 rest.asString,
      col := some (get_column_number c) }

/-- The 19 valid column letters A–T, skipping I (the `INPUT_CHAR_RANGE` /
`char_range` constant of `src/gogame/gogame.rs` and
`src/view/board/board_controller.rs`). -/
def INPUT_CHAR_RANGE : List Char :=
  ['A', 'B', 'C', 'D', 'E', 'F', 'G', 'H', 'J', 'K', 'L', 'M', 'N', 'O', 'P',
   'Q', 'R', 'S', 'T']

/-- The digit characters (`INPUT_NUMBER_RANGE` / `number_range`). -/
def INPUT_NUMBER_RANGE : List Char :=
  ['0', '1', '2', '3', '4', '5', '6', '7', '8', '9']

/-- `tui::style::Color`, restricted to the variants this program can
produce (`parse_color` in `src/core/helpers.rs`). -/
inductive Color
  | rgb (r g b : ℕ)
  | black
  | red
  | green
  | yellow
  | blue
  | magenta
  | cyan
  | gray
  | darkGray
  | lightRed
  | lightGreen
  | lightYellow
  | lightBlue
  | lightMagenta
  | lightCyan
deriving DecidableEq, Repr

/-- `tui::style::Modifier`, reduced to the single flag (`BOLD`) this
program uses. -/
structure Modifier where
  bold : Bool
deriving DecidableEq, Repr

/-- `tui::style::Style`: optional foreground/background colours and the
added modifier flags (the program never uses `sub_modifier`). -/
structure Style where
  fg : Option Color
  bg : Option Color
  addBold : Bool
deriving DecidableEq, Repr

/-- `Style::default()`: no colours, no modifiers. -/
def Style.default' : Style := ⟨none, none, false⟩

/-- `Style::fg` (builder method): replace the foreground colour. -/
def Style.setFg (s : Style) (c : Color) : Style := { s with fg := some c }

/-- `Style::bg` (builder method): replace the background colour. -/
def Style.setBg (s : Style) (c : Color) : Style := { s with bg := some c }

/-- `Style::add_modifier`: union the added modifier flags. -/
def Style.addModifier (s : Style) (m : Modifier) : Style :=
  { s with addBold := s.addBold || m.bold }

/-- The view theme, from `src/view/board/theme.rs` (`Theme`).  That file
omits the `board_bg_hl_color` field that `board_table.rs` reads; the field
is taken from the sibling theme in `src/core/theme.rs` (highlight
background `#E3C388`). -/
structure Theme where
  board_bg_color : Color
  board_bg_hl_color : Color
  text_fg_color : Color
  header_text_style : Modifier
  intersection_char : String
  intersection_star_char : String
  intersection_star_color : Color
  white_stone_char : String
  black_stone_char : String
  white_stone_color : Color
  black_stone_color : Color
  intersection_horiz_char : String
  intersection_color : Color
deriving DecidableEq, Repr

/-- `Theme::default()` from `src/view/board/theme.rs`, with the hex colour
strings already resolved by `parse_color` (for example `#af9769` is
`Rgb(175, 151, 105)`). -/
def Theme.default' : Theme :=
  { board_bg_color := .rgb 175 151 105
    board_bg_hl_color := .rgb 227 195 136
    text_fg_color := .rgb 28 31 37
    header_text_style := ⟨true⟩
    intersection_char := "┼"
    intersection_star_char := "╋"
    intersection_star_color := .rgb 125 108 75
    intersection_horiz_char := "─"
    intersection_color := .rgb 125 108 75
    white_stone_char := "●"
    black_stone_char := "●"
    white_stone_color := .rgb 255 255 255
    black_stone_color := .rgb 0 0 0 }

/-- A cell of the board layout, from `src/view/board/board_table.rs`
(`BoardCell`). -/
structure BoardCell where
  cell_text : String
  cell_style : Option Style
  stone : Option Stone
deriving DecidableEq, Repr

/-- `BoardCell::new`. -/
def BoardCell.new (cell_text : String) (cell_style : Option Style)
    (stone : Option Stone) : BoardCell :=
  ⟨cell_text, cell_style, stone⟩

/-- `BoardCell::from`. -/
def BoardCell.fromText (cell_text : String) (stone : Option Stone) : BoardCell :=
  BoardCell.new cell_text none stone

/-- `BoardCell::spacing`: an empty, unstyled cell. -/
def BoardCell.spacing : BoardCell := BoardCell.fromText "" none

/-- `BoardCell::styled_spacing`: an empty cell with a style. -/
def BoardCell.styledSpacing (style : Style) : BoardCell :=
  ⟨"", some style, none⟩

/-- A row of the board layout, from `src/view/board/board_table.rs`
(`BoardRow`). -/
structure BoardRow where
  cells : List BoardCell
deriving DecidableEq, Repr

/-- The board-state store actor, from `src/view/board/board_table.rs`
(`BoardTableActor`).  `refresh_ui_request` is the dirty flag. -/
structure BoardTableActor where
  rows : List BoardRow
  board_size : ℕ
  number_column_size : ℕ
  theme : Theme
  star_points : List Coords
  white_stones : List Stone
  black_stones : List Stone
  highlight_coords : OptCoords
  refresh_ui_request : Bool
  next_move_input : String
deriving DecidableEq, Repr

/-- `is_column_highlighted` from `src/view/board/board_table.rs`. -/
def BoardTableActor.is_column_highlighted (a : BoardTableActor) (column : ℕ) :
    Bool :=
  match a.highlight_coords.col with
  | some c => c = column
  | none => false

/-- `is_row_highlighted` from `src/view/board/board_table.rs`. -/
def BoardTableActor.is_row_highlighted (a : BoardTableActor) (row : ℕ) : Bool :=
  match a.highlight_coords.row with
  | some r => r = row
  | none => false

/-- Stable insertion into a list sorted by descending `col`, used to model
`Vec::sort_by(|a, b| b.col.cmp(&a.col))`. -/
def insertByColDesc (s : Stone) : List Stone → List Stone
  | [] => [s]
  | t :: ts => if t.col ≤ s.col then s :: t :: ts else t :: insertByColDesc s ts

/-- `line_stones.sort_by(|a, b| b.col.cmp(&a.col))`: stable sort by
descending column. -/
def sortByColDesc (l : List Stone) : List Stone :=
  l.foldr insertByColDesc []

/-- Stable insertion into a list of coordinates sorted by descending `col`. -/
def insertCoordByColDesc (s : Coords) : List Coords → List Coords
  | [] => [s]
  | t :: ts =>
    if t.col ≤ s.col then s :: t :: ts else t :: insertCoordByColDesc s ts

/-- `line_star_points.sort_by(|a, b| b.col.cmp(&a.col))`. -/
def sortCoordsByColDesc (l : List Coords) : List Coords :=
  l.foldr insertCoordByColDesc []

/-- `Vec::pop`: remove and return the last element. -/
def popLast (l : List Stone) : Option Stone × List Stone :=
  (l.getLast?, l.dropLast)

/-- `Vec::pop` on a vector of coordinates. -/
def popLastCoord (l : List Coords) : Option Coords × List Coords :=
  (l.getLast?, l.dropLast)

/-- The per-column body of the `for column in 1..=self.board_size` loop of
`make_line_row`, traversing the columns while popping matching stones and
star points from the column-descending stacks. -/
def lineRowLoop (a : BoardTableActor) (default_intersection_style : Style)
    (line_nr : ℕ) :
    List ℕ → List Stone → Option Stone → List Coords → Option Coords →
    List BoardCell
  | [], _, _, _, _ => []
  | column :: restCols, line_stones, line_stones_next, line_star_points,
    line_star_next =>
    let sep : BoardCell :=
      if 1 < column then
        BoardCell.new a.theme.intersection_horiz_char
          (some default_intersection_style) none
      else
        BoardCell.styledSpacing default_intersection_style
    let stonePair : Option Stone × (List Stone × Option Stone) :=
      match line_stones_next with
      | some s =>
        if s.col = column then
          let (nxt, rest) := popLast line_stones
          (some s, (rest, nxt))
        else (none, (line_stones, line_stones_next))
      | none => (none, (line_stones, none))
    let stone := stonePair.1
    let starPair : Bool × (List Coords × Option Coords) :=
      match line_star_next with
      | some s =>
        if s.col = column then
          let (nxt, rest) := popLastCoord line_star_points
          (true, (rest, nxt))
        else (false, (line_star_points, line_star_next))
      | none => (false, (line_star_points, none))
    let is_star_point := starPair.1
    let white_stone_style :=
      default_intersection_style.setFg a.theme.white_stone_color
    let black_stone_style :=
      default_intersection_style.setFg a.theme.black_stone_color
    let intersectionPair : String × Style :=
      if is_star_point then
        (a.theme.intersection_star_char,
         default_intersection_style.setFg a.theme.intersection_star_color)
      else
        (a.theme.intersection_char, default_intersection_style)
    let selected_style₀ : Style :=
      match stone with
      | some s =>
        match s.color with
        | .white => white_stone_style
        | .black => black_stone_style
      | none => intersectionPair.2
    let selected_style : Style :=
      if a.is_row_highlighted line_nr || a.is_column_highlighted column then
        selected_style₀.setBg a.theme.board_bg_hl_color
      else selected_style₀
    let cell : BoardCell :=
      match stone with
      | some s =>
        match s.color with
        | .white => BoardCell.new a.theme.white_stone_char (some selected_style) stone
        | .black => BoardCell.new a.theme.black_stone_char (some selected_style) stone
      | none => BoardCell.new intersectionPair.1 (some selected_style) stone
    sep :: cell ::
      lineRowLoop a default_intersection_style line_nr restCols
        stonePair.2.1 stonePair.2.2 starPair.2.1 starPair.2.2

/-- Rust's `format!("{: >3}", line_nr)`: decimal, right-aligned to width 3. -/
def padLeft3 (n : ℕ) : String :=
  let s := toString n
  String.mk (List.replicate (3 - s.length) ' ') ++ s

/-- Rust's `format!("{: <3}", line_nr)`: decimal, left-aligned to width 3. -/
def padRight3 (n : ℕ) : String :=
  let s := toString n
  s ++ String.mk (List.replicate (3 - s.length) ' ')

/-- `make_line_row` from `src/view/board/board_table.rs`: highlight-adjusted
styles, the right-aligned line-number cell, the sorted pop-based column
scan, and the trailing spacing and left-aligned line-number cells. -/
def BoardTableActor.make_line_row (a : BoardTableActor)
    (header_style default_intersection_style : Style) (line_nr : ℕ)
    (line_stones : List Stone) (line_star_points : List Coords) : BoardRow :=
  let stylePair : Style × Style :=
    if a.is_row_highlighted line_nr then
      (default_intersection_style.setBg a.theme.board_bg_hl_color,
       header_style.setBg a.theme.board_bg_hl_color)
    else (default_intersection_style, header_style)
  let default_intersection_style := stylePair.1
  let header_style := stylePair.2
  let firstCell : BoardCell :=
    BoardCell.new (padLeft3 line_nr) (some header_style) none
  let sortedStones := sortByColDesc line_stones
  let sortedStars := sortCoordsByColDesc line_star_points
  let (line_stones_next, stonesRest) := popLast sortedStones
  let (line_star_next, starsRest) := popLastCoord sortedStars
  let columns := (List.range a.board_size).map (· + 1)
  let body :=
    lineRowLoop a default_intersection_style line_nr columns
      stonesRest line_stones_next starsRest line_star_next
  let tail : List BoardCell :=
    [BoardCell.styledSpacing default_intersection_style,
     BoardCell.new (padRight3 line_nr) (some header_style) none]
  ⟨firstCell :: (body ++ tail)⟩

/-- `make_header_row` from `src/view/board/board_table.rs`: a leading
spacing cell, then per column a spacing cell and the (possibly
highlighted) column-letter cell, then two trailing spacing cells. -/
def BoardTableActor.make_header_row (a : BoardTableActor)
    (default_header_style : Style) : BoardRow :=
  let perColumn : ℕ → List BoardCell := fun column =>
    let header_style :=
      if a.is_column_highlighted column then
        default_header_style.setBg a.theme.board_bg_hl_color
      else default_header_style
    [BoardCell.spacing,
     BoardCell.new (String.mk [get_column_name column]) (some header_style)
       none]
  ⟨BoardCell.spacing ::
    (((List.range a.board_size).map (· + 1)).flatMap perColumn ++
      [BoardCell.spacing, BoardCell.spacing])⟩

/-- The pure row layout computed by `refresh_ui_rows` in
`src/view/board/board_table.rs`: a header row, one row per board line in
descending line order, and a trailing header row. -/
def BoardTableActor.computeBoardRows (a : BoardTableActor) : List BoardRow :=
  let default_style :=
    (Style.default'.setBg a.theme.board_bg_color).setFg a.theme.text_fg_color
  let header_style := default_style.addModifier a.theme.header_text_style
  let intersection_style := default_style.setFg a.theme.intersection_color
  let lineRows :=
    (((List.range a.board_size).map (· + 1)).reverse).map fun line =>
      let line_stones :=
        (a.white_stones ++ a.black_stones).filter fun stone => stone.row = line
      let line_star_points :=
        a.star_points.filter fun stone => stone.row = line
      a.make_line_row header_style intersection_style line line_stones
        line_star_points
  (a.make_header_row header_style :: lineRows) ++
    [a.make_header_row header_style]

/-- `refresh_ui_rows`: store the recomputed layout in `rows`. -/
def BoardTableActor.refresh_ui_rows (a : BoardTableActor) : BoardTableActor :=
  { a with rows := a.computeBoardRows }

/-- `BoardTableActor::new` from `src/view/board/board_table.rs`: a fresh
store with `number_column_size = 3`, empty stone lists, the computed star
points, a cleared highlight and input, a clear dirty flag, and the layout
computed once. -/
def BoardTableActor.new (board_size : ℕ) (theme : Theme) : BoardTableActor :=
  let table : BoardTableActor :=
    { rows := []
      board_size := board_size
      number_column_size := 3
      white_stones := []
      black_stones := []
      star_points := make_star_points board_size
      theme := theme
      highlight_coords := { col := none, row := none }
      refresh_ui_request := false
      next_move_input := "" }
  table.refresh_ui_rows

/-- A rendered cell as handed to `tui` (`Cell::from(text).style(...)`);
`GetTuiRowsMessage` converts each `BoardCell`, defaulting a missing style. -/
structure TuiCell where
  text : String
  style : Style
deriving DecidableEq, Repr

/-- A rendered row as handed to `tui` (`Row::new(cells)`). -/
structure TuiRow where
  cells : List TuiCell
deriving DecidableEq, Repr

/-- The cell conversion performed inside the `GetTuiRowsMessage` handler:
`Cell::from(text).style(cell_style.unwrap_or(Style::default()))`. -/
def BoardRow.toTuiRow (r : BoardRow) : TuiRow :=
  ⟨r.cells.map fun c => ⟨c.cell_text, c.cell_style.getD Style.default'⟩⟩

/-- `Handler<SetNextMoveInput>` from `src/view/board/board_table.rs`:
stores the text; note that it does not touch `refresh_ui_request`. -/
def handleSetNextMoveInput (a : BoardTableActor) (text : String) :
    BoardTableActor :=
  { a with next_move_input := text }

/-- `Handler<SetHightlightCoordsMessage>` (source spelling): stores the
coordinates and raises the dirty flag. -/
def handleSetHightlightCoords (a : BoardTableActor) (coords : OptCoords) :
    BoardTableActor :=
  { a with highlight_coords := coords, refresh_ui_request := true }

/-- `Handler<SetWhiteStonesMessage>`: replaces the white stones and raises
the dirty flag. -/
def handleSetWhiteStones (a : BoardTableActor) (stones : List Stone) :
    BoardTableActor :=
  { a with white_stones := stones, refresh_ui_request := true }

/-- `Handler<SetBlackStonesMessage>`: replaces the black stones and raises
the dirty flag. -/
def handleSetBlackStones (a : BoardTableActor) (stones : List Stone) :
    BoardTableActor :=
  { a with black_stones := stones, refresh_ui_request := true }

/-- `Handler<GetTuiRowsMessage>`: when the dirty flag is set, recompute the
row layout and clear the flag; then return the cell-converted rows.  The
result is `(returned rows, post state, whether a recomputation ran)`. -/
def handleGetTuiRows (a : BoardTableActor) :
    List TuiRow × BoardTableActor × Bool :=
  let a' :=
    if a.refresh_ui_request then
      { a.refresh_ui_rows with refresh_ui_request := false }
    else a
  (a'.rows.map BoardRow.toTuiRow, a', a.refresh_ui_request)

/-- The operations of the board-state store actor (its message handlers).
Read-only handlers (`GetHighlightCoordsMessage`, `GetNextMoveInput`,
`GetBoardSizeMessage`, `GetTuiWidthsMessage`) leave the state unchanged. -/
inductive TableOp
  | setWhiteStones (stones : List Stone)
  | setBlackStones (stones : List Stone)
  | setHightlightCoords (coords : OptCoords)
  | setNextMoveInput (text : String)
  | getTuiRows
  | getHighlightCoords
  | getNextMoveInput
  | getBoardSize
  | getTuiWidths

/-- The state transition of each store operation. -/
def applyTableOp (op : TableOp) (a : BoardTableActor) : BoardTableActor :=
  match op with
  | .setWhiteStones stones => handleSetWhiteStones a stones
  | .setBlackStones stones => handleSetBlackStones a stones
  | .setHightlightCoords coords => handleSetHightlightCoords a coords
  | .setNextMoveInput text => handleSetNextMoveInput a text
  | .getTuiRows => (handleGetTuiRows a).2.1
  | .getHighlightCoords => a
  | .getNextMoveInput => a
  | .getBoardSize => a
  | .getTuiWidths => a

/-- The game board of the iced snapshot, from `src/gogame/board.rs`
(`Board`); the rendering-only `theme` field is omitted. -/
structure Board where
  board_size : ℕ
  number_column_size : ℕ
  star_points : List Coords
  white_stones : List Stone
  black_stones : List Stone
  highlight_coords : OptCoords
deriving DecidableEq, Repr

/-- `Board::new` from `src/gogame/board.rs`. -/
def Board.new (board_size : ℕ) : Board :=
  { board_size := board_size
    number_column_size := 2
    star_points := gen_star_points board_size
    white_stones := []
    black_stones := []
    highlight_coords := OptCoords.default }

/-- `Board::highlight_coords` (setter) from `src/gogame/board.rs`. -/
def Board.setHighlightCoords (b : Board) (coords : OptCoords) : Board :=
  { b with highlight_coords := coords }

/-- `Board::set_stones` from `src/gogame/board.rs`: wholesale replacement
of both stone collections. -/
def Board.set_stones (b : Board) (black_stones white_stones : List Stone) :
    Board :=
  { b with black_stones := black_stones, white_stones := white_stones }

/-- `Board::get_valid_highlight_coords` from `src/gogame/board.rs`:
`Some` exactly when both row and col are present. -/
def Board.get_valid_highlight_coords (b : Board) : Option Coords :=
  match b.highlight_coords with
  | { row := some row, col := some col } => some { row := row, col := col }
  | _ => none

/-- The `GtpStatus` enum from `src/gogame/gogame.rs`. -/
inductive GtpStatus
  | loading
  | idle
  | error
deriving DecidableEq, Repr

/-- The application state of the iced snapshot, from `src/gogame/gogame.rs`
(`GoGame`); the engine handle is replaced by the oracle supplied to the
driver below, and the theme is omitted (rendering only). -/
structure GoGame where
  should_exit : Option ℕ
  board : Option Board
  next_move_input : String
  player_color : StoneColor
  gtp_status : GtpStatus
  gtp_error : Option String
deriving DecidableEq, Repr

/-- The initial `GoGame` state built in `GoGame::new`, after the board has
been loaded with the engine-reported size (`GameMessage::BoardLoaded`). -/
def GoGame.initial (board_size : ℕ) : GoGame :=
  { should_exit := none
    board := some (Board.new board_size)
    next_move_input := ""
    player_color := .black
    gtp_status := .idle
    gtp_error := none }

/-- The keyboard keys the `update` function inspects
(`iced::keyboard::Event::KeyReleased`): Ctrl+C, Backspace and Enter;
`other` stands for any other released key. -/
inductive KeyCode
  | ctrlC
  | backspace
  | enter
  | other
deriving DecidableEq, Repr

/-- `GameMessage` from `src/gogame/game_message.rs`, with the
`EventOccurred` keyboard events flattened into the two handled shapes
(`KeyReleased` and `CharacterReceived`); `BoardLoaded` is covered by
`GoGame.initial`. -/
inductive GameMessage
  | keyReleased (key : KeyCode)
  | charReceived (c : Char)
  | afterStonePlayed (black_stones white_stones : List Stone)
  | afterGenMove (black_stones white_stones : List Stone)
  | gtpError (message : String)
deriving DecidableEq, Repr

/-- The asynchronous engine tasks `update` can return
(`Command::perform(GoGame::play_move ...)` and
`Command::perform(GoGame::gen_next_move ...)`). -/
inductive GCmd
  | playMoveCmd (coords : Coords) (color : StoneColor)
  | genNextMoveCmd (player_color : StoneColor)
deriving DecidableEq, Repr

/-- `GoGame::refresh_highlight_coords` from `src/gogame/gogame.rs`. -/
def GoGame.refresh_highlight_coords (st : GoGame) : GoGame :=
  match st.board with
  | some b =>
    { st with
        board := some (b.setHighlightCoords
          (parse_input_coords st.next_move_input)) }
  | none => st

/-- The `KeyReleased` arm of `GoGame::update`: Ctrl+C requests exit,
Backspace (in `Idle`) pops the input, Enter (in `Idle`, with a board and a
fully specified highlight) clears the input, moves to `Loading` and
returns the play task. -/
def GoGame.updateKeyReleased (st : GoGame) (key : KeyCode) :
    GoGame × Option GCmd :=
  let st :=
    if key = .ctrlC then { st with should_exit := some 1 } else st
  let st :=
    if key = .backspace ∧ st.gtp_status = .idle then
      if st.next_move_input ≠ "" then
        ({ st with next_move_input := st.next_move_input.dropRight 1
         } : GoGame).refresh_highlight_coords
      else st
    else st
  if key = .enter ∧ st.gtp_status = .idle then
    match st.board with
    | some b =>
      match b.get_valid_highlight_coords with
      | some coords =>
        let st' :=
          ({ st with gtp_status := .loading, next_move_input := ""
           } : GoGame).refresh_highlight_coords
        (st', some (.playMoveCmd coords st.player_color))
      | none => (st, none)
    | none => (st, none)
  else (st, none)

/-- The `CharacterReceived` arm of `GoGame::update`: a column letter is
accepted only into an empty buffer, a digit only into a non-empty buffer
shorter than three characters; each acceptance refreshes the highlight. -/
def GoGame.updateCharReceived (st : GoGame) (c : Char) :
    GoGame × Option GCmd :=
  let st :=
    if c ∈ INPUT_CHAR_RANGE ∧ st.gtp_status = .idle then
      if st.next_move_input = "" then
        ({ st with next_move_input := st.next_move_input.push c
         } : GoGame).refresh_highlight_coords
      else st
    else st
  let st :=
    if c ∈ INPUT_NUMBER_RANGE ∧ st.gtp_status = .idle then
      if st.next_move_input ≠ "" ∧ st.next_move_input.length < 3 then
        ({ st with next_move_input := st.next_move_input.push c
         } : GoGame).refresh_highlight_coords
      else st
    else st
  (st, none)

/-- `GoGame::update` from `src/gogame/gogame.rs`, as a pure function from
state and message to the new state and the engine task to perform. -/
def GoGame.update (st : GoGame) (msg : GameMessage) : GoGame × Option GCmd :=
  match msg with
  | .keyReleased key => st.updateKeyReleased key
  | .charReceived c => st.updateCharReceived c
  | .afterStonePlayed black_stones white_stones =>
    let st :=
      match st.board with
      | some b => { st with board := some (b.set_stones black_stones white_stones) }
      | none => st
    (st, some (.genNextMoveCmd st.player_color))
  | .afterGenMove black_stones white_stones =>
    let st :=
      match st.board with
      | some b => { st with board := some (b.set_stones black_stones white_stones) }
      | none => st
    ({ st with gtp_status := .idle }, none)
  | .gtpError message =>
    ({ st with gtp_error := some message, gtp_status := .error }, none)

/-- The engine calls issued by the iced snapshot's refresh chains. -/
inductive EngCall
  | play (color : StoneColor) (coords : Coords)
  | listStones (color : StoneColor)
  | genmove (color : StoneColor)
deriving DecidableEq, Repr

/-- An engine oracle for the iced snapshot: the reply to the `k`-th call of
the commit chain.  A successful reply carries the stone list (meaningful
for `list_stones`; ignored for `play`/`genmove`, whose payloads the chain
discards); an error reply models any `AppError`, engine-reported failure
and timeout alike. -/
def GtpOracle := ℕ → EngCall → Except String (List Stone)

/-- `GoGame::play_move` from `src/gogame/gogame.rs`: `play`, then
`list_stones(Black)`, then `list_stones(White)`, each `?`-propagating its
error; on success both lists are returned.  The chain's calls are numbered
`k`, `k+1`, `k+2`. -/
def play_move (oracle : GtpOracle) (k : ℕ) (color : StoneColor)
    (coords : Coords) : Except String (List Stone × List Stone) := do
  _ ← oracle k (.play color coords)
  let black_stones ← oracle (k + 1) (.listStones .black)
  let white_stones ← oracle (k + 2) (.listStones .white)
  pure (black_stones, white_stones)

/-- `GoGame::gen_next_move` from `src/gogame/gogame.rs`:
`gen_move(player_color.inverse())`, then both `list_stones` calls. -/
def gen_next_move (oracle : GtpOracle) (k : ℕ) (player_color : StoneColor) :
    Except String (List Stone × List Stone) := do
  _ ← oracle k (.genmove player_color.inverse)
  let black_stones ← oracle (k + 1) (.listStones .black)
  let white_stones ← oracle (k + 2) (.listStones .white)
  pure (black_stones, white_stones)

/-- The message produced by performing an engine task against the oracle
(the result-to-message closures of `Command::perform` in
`src/gogame/gogame.rs`).  A task consumes three call numbers. -/
def runGCmd (oracle : GtpOracle) (k : ℕ) : GCmd → GameMessage × ℕ
  | .playMoveCmd coords color =>
    (match play_move oracle k color coords with
     | .ok (black_stones, white_stones) =>
       .afterStonePlayed black_stones white_stones
     | .error e => .gtpError e,
     k + 3)
  | .genNextMoveCmd player_color =>
    (match gen_next_move oracle k player_color with
     | .ok (black_stones, white_stones) =>
       .afterGenMove black_stones white_stones
     | .error e => .gtpError e,
     k + 3)

/-- The iced runtime loop: perform the pending task, feed the resulting
message to `update`, and continue with the next task, for at most `fuel`
rounds. -/
def drive (oracle : GtpOracle) : ℕ → GoGame → Option GCmd → ℕ → GoGame
  | 0, st, _, _ => st
  | _ + 1, st, none, _ => st
  | fuel + 1, st, some cmd, k =>
    let (msg, k') := runGCmd oracle k cmd
    let (st', cmd') := st.update msg
    drive oracle fuel st' cmd' k'

/-- A full commit round: press Enter, then run the resulting
`play_move`/`gen_next_move` chain to completion. -/
def commitRound (st : GoGame) (oracle : GtpOracle) : GoGame :=
  let (st1, cmd) := st.update (.keyReleased .enter)
  drive oracle 3 st1 cmd 0

/-- The engine commands of the actix snapshot (`PlayMessage`,
`GenMoveMessage`, `ListStonesMessage` in `src/core/engine.rs`); the two
`list_stones` colours are distinguished. -/
inductive ECmd
  | play
  | genmove
  | listW
  | listB
deriving DecidableEq, Repr

/-- Observable engine events: the `EngineActor` starts processing a
command (`issued`) and finishes it with a success flag (`completed`);
the actor is strictly serial, so each `issued` is immediately followed by
its `completed`. -/
inductive MEv
  | issued (c : ECmd)
  | completed (c : ECmd) (ok : Bool)
deriving DecidableEq, Repr

/-- The messages processed by `BoardControllerActor`
(`src/view/board/board_controller.rs`): the Enter key event, the
self-notified `RefreshStonesMessage` and `UpdateHightlightCoordsMessage`,
and the engine's `OnStonesChangeMessage` listener callback. -/
inductive CMsg
  | keyEnter
  | refreshStones
  | updateHighlight
  | onStonesChange
deriving DecidableEq, Repr

/-- The slice of `BoardTableActor` state the commit flow touches. -/
structure MTable where
  next_move_input : String
  highlight_coords : OptCoords
  stones_writes : ℕ
deriving DecidableEq, Repr

/-- A pending `RefreshStonesMessage` join: the white and black
`list_stones` replies it still awaits (`Some ok` once received). -/
structure MJoin where
  white : Option Bool
  black : Option Bool
deriving DecidableEq, Repr

/-- The success/failure behaviour of the engine for each command class. -/
structure EngineBehavior where
  playOk : Bool
  genmoveOk : Bool
  listWOk : Bool
  listBOk : Bool
deriving DecidableEq, Repr

/-- The reply the engine behaviour gives to a command. -/
def EngineBehavior.ok (o : EngineBehavior) : ECmd → Bool
  | .play => o.playOk
  | .genmove => o.genmoveOk
  | .listW => o.listWOk
  | .listB => o.listBOk

/-- Global state of the two-actor system: the controller's mailbox, the
engine's mailbox, the board-table slice, the pending refresh joins (FIFO),
the engine event log, and whether the controller panicked. -/
structure MState where
  ctrlQ : List CMsg
  engQ : List ECmd
  table : MTable
  joins : List MJoin
  log : List MEv
  panicked : Bool
deriving DecidableEq, Repr

/-- Record a white `list_stones` reply into the first join awaiting one. -/
def fillWhite (ok : Bool) : List MJoin → List MJoin
  | [] => []
  | j :: js =>
    if j.white = none then { j with white := some ok } :: js
    else j :: fillWhite ok js

/-- Record a black `list_stones` reply into the first join awaiting one. -/
def fillBlack (ok : Bool) : List MJoin → List MJoin
  | [] => []
  | j :: js =>
    if j.black = none then { j with black := some ok } :: js
    else j :: fillBlack ok js

/-- Fire every completed join at the head of the FIFO: when both replies
succeeded, the handler sends `SetWhiteStonesMessage` and
`SetBlackStonesMessage` to the table (counted in `stones_writes`);
otherwise it produces the "cant refresh stones" error and writes nothing. -/
def fireJoins : List MJoin → ℕ → List MJoin × ℕ
  | [], writes => ([], writes)
  | j :: js, writes =>
    match j.white, j.black with
    | some wOk, some bOk =>
      fireJoins js (if wOk && bOk then writes + 1 else writes)
    | _, _ => (j :: js, writes)

/-- One controller message handler execution, following
`src/view/board/board_controller.rs`:

* `keyEnter` (the `Key::Char('\n')` arm): reads the highlight, converts it
  with `try_into().unwrap()` — a panic when a field is missing — then
  `do_send`s `PlayMessage`, notifies itself `RefreshStonesMessage`, clears
  the pending input, notifies `UpdateHightlightCoordsMessage`, and
  `do_send`s `GenMoveMessage`;
* `refreshStones`: sends `list_stones` for white then black and joins the
  two replies;
* `updateHighlight`: re-parses the pending input into the highlight;
* `onStonesChange`: notifies itself `RefreshStonesMessage`. -/
def ctrlHandle (s : MState) : CMsg → MState
  | .keyEnter =>
    match s.table.highlight_coords.tryIntoCoords with
    | none => { s with panicked := true }
    | some _ =>
      { s with
          engQ := s.engQ ++ [.play] ++ [.genmove]
          ctrlQ := s.ctrlQ ++ [.refreshStones, .updateHighlight]
          table := { s.table with next_move_input := "" } }
  | .refreshStones =>
    { s with
        engQ := s.engQ ++ [.listW, .listB]
        joins := s.joins ++ [⟨none, none⟩] }
  | .updateHighlight =>
    { s with
        table :=
          { s.table with
              highlight_coords := parse_input_coords s.table.next_move_input } }
  | .onStonesChange => { s with ctrlQ := s.ctrlQ ++ [.refreshStones] }

/-- One engine command execution (`EngineActor` handlers in
`src/core/engine.rs`): log the command and its outcome; a successful
`play` or `genmove` notifies the listener (`OnStonesChangeMessage` back to
the controller); a `list_stones` reply resolves its join. -/
def engHandle (o : EngineBehavior) (s : MState) (c : ECmd) : MState :=
  let ok := o.ok c
  let s := { s with log := s.log ++ [.issued c, .completed c ok] }
  match c with
  | .play => if ok then { s with ctrlQ := s.ctrlQ ++ [.onStonesChange] } else s
  | .genmove =>
    if ok then { s with ctrlQ := s.ctrlQ ++ [.onStonesChange] } else s
  | .listW =>
    let joins := fillWhite ok s.joins
    let (joins, writes) := fireJoins joins s.table.stones_writes
    { s with joins := joins, table := { s.table with stones_writes := writes } }
  | .listB =>
    let joins := fillBlack ok s.joins
    let (joins, writes) := fireJoins joins s.table.stones_writes
    { s with joins := joins, table := { s.table with stones_writes := writes } }

/-- One scheduler step: a panicked system halts; otherwise the controller
processes its next message, and when its mailbox is empty the engine
processes its next command. -/
def mStep (o : EngineBehavior) (s : MState) : MState :=
  if s.panicked then s
  else
    match s.ctrlQ with
    | m :: rest => ctrlHandle { s with ctrlQ := rest } m
    | [] =>
      match s.engQ with
      | c :: rest => engHandle o { s with engQ := rest } c
      | [] => s

/-- Run the system for `fuel` scheduler steps. -/
def mRun (o : EngineBehavior) : ℕ → MState → MState
  | 0, s => s
  | fuel + 1, s => mRun o fuel (mStep o s)

/-- The system state at the moment the user presses Enter: the Enter event
queued for the controller, empty engine mailbox, and the table holding the
typed input and its parsed highlight. -/
def mInit (input : String) : MState :=
  { ctrlQ := [.keyEnter]
    engQ := []
    table :=
      { next_move_input := input
        highlight_coords := parse_input_coords input
        stones_writes := 0 }
    joins := []
    log := []
    panicked := false }

/-- The commit flow of the actix snapshot, run to quiescence (24 scheduler
steps suffice; the cascade has at most 15). -/
def runCommit (o : EngineBehavior) (input : String) : MState :=
  mRun o 24 (mInit input)

/-- Claim C1 as a predicate on the engine event log: whenever the play
succeeded, every `gen_move` issuance is preceded by a completed
`list_stones` of each colour. -/
def listsCompleteBeforeGenMove (log : List MEv) : Prop :=
  MEv.completed .play true ∈ log →
    ∀ g < log.length, log[g]? = some (MEv.issued .genmove) →
      (∃ i < g, ∃ okw : Bool, log[i]? = some (MEv.completed .listW okw)) ∧
        (∃ j < g, ∃ okb : Bool, log[j]? = some (MEv.completed .listB okb))

/-! ## Theorems -/

/-- Helper: the Enter commit of the iced `update` under Idle status, a
present board and a fully specified highlight clears the input, moves to
Loading, re-parses the (now empty) input into the highlight, and returns
the play task for the highlighted coordinates. -/
theorem update_enter_commit_eq (se : Option ℕ) (bd : Board) (inp : String)
    (pc : StoneColor) (ge : Option String) (r c : ℕ)
    (hl : bd.highlight_coords = { row := some r, col := some c }) :
    GoGame.update ⟨se, some bd, inp, pc, .idle, ge⟩ (.keyReleased .enter) =
      (⟨se, some (bd.setHighlightCoords (parse_input_coords "")), "", pc,
        .loading, ge⟩,
       some (.playMoveCmd (Coords.from' r c) pc)) := by
  obtain ⟨bs, ncs, sp, ws, bks, hl0⟩ := bd
  simp only at hl
  subst hl
  simp [GoGame.update, GoGame.updateKeyReleased,
    Board.get_valid_highlight_coords, GoGame.refresh_highlight_coords,
    Board.setHighlightCoords, Coords.from']

/-- C6: `get_column_name` and `get_column_number` are mutual inverses over
the 19 valid columns: `get_column_number (get_column_name c) = c` for every
column number `c` in `1..=19`, and `get_column_name (get_column_number l) = l`
for every letter of A–T excluding I, with `'A' ↔ 1`, `'H' ↔ 8`, `'J' ↔ 9`
and `'T' ↔ 19`. -/
theorem c6_column_maps_are_mutual_inverses :
    (∀ c : ℕ, c ≤ 19 → 1 ≤ c → get_column_number (get_column_name c) = c) ∧
    (∀ l ∈ INPUT_CHAR_RANGE, get_column_name (get_column_number l) = l) ∧
    get_column_number 'A' = 1 ∧ get_column_number 'H' = 8 ∧
    get_column_number 'J' = 9 ∧ get_column_number 'T' = 19 ∧
    get_column_name 1 = 'A' ∧ get_column_name 8 = 'H' ∧
    get_column_name 9 = 'J' ∧ get_column_name 19 = 'T' := by
  decide

/-- Sample instantiation of `c6_column_maps_are_mutual_inverses` at column
17 (letter R). -/
theorem c6_column_maps_witness :
    get_column_number (get_column_name 17) = 17 :=
  c6_column_maps_are_mutual_inverses.1 17 (by norm_num) (by norm_num)

/-- C8: for every board size in the supported `u8` range (at least 3, so
that no corner offset underflows), the star-point generator returns
exactly 5 points when the size is below 19 and exactly 9 otherwise, all
with row and column within `[1, N]`; `make_star_points` of the store is
the same function. -/
theorem c8_star_points_count_and_bounds (n : ℕ) (h3 : 3 ≤ n)
    (h255 : n ≤ 255) :
    (gen_star_points n).length = (if 19 ≤ n then 9 else 5) ∧
    (∀ p ∈ gen_star_points n,
      1 ≤ p.row ∧ p.row ≤ n ∧ 1 ≤ p.col ∧ p.col ≤ n) ∧
    make_star_points n = gen_star_points n := by
  refine ⟨?_, ?_, rfl⟩
  · by_cases h19 : 19 ≤ n <;> simp [gen_star_points, h19]
  · intro p hp
    by_cases h19 : 19 ≤ n
    · have h13 : 13 ≤ n := by omega
      simp [gen_star_points, Coords.from', h19, h13] at hp
      rcases hp with hp | hp | hp | hp | hp | hp | hp | hp | hp <;> subst hp <;>
        refine ⟨?_, ?_, ?_, ?_⟩ <;> simp <;> omega
    · by_cases h13 : 13 ≤ n <;>
        simp [gen_star_points, Coords.from', h19, h13] at hp <;>
        rcases hp with hp | hp | hp | hp | hp <;> subst hp <;>
          refine ⟨?_, ?_, ?_, ?_⟩ <;> simp <;> omega

/-- Sample instantiation of `c8_star_points_count_and_bounds` on the
19×19 board. -/
theorem c8_star_points_witness :
    (gen_star_points 19).length = (if 19 ≤ (19 : ℕ) then 9 else 5) ∧
    (∀ p ∈ gen_star_points 19,
      1 ≤ p.row ∧ p.row ≤ 19 ∧ 1 ≤ p.col ∧ p.col ≤ 19) ∧
    make_star_points 19 = gen_star_points 19 :=
  c8_star_points_count_and_bounds 19 (by norm_num) (by norm_num)

/-- C9: the middle star point is `(N / 2, N / 2)` with truncating
division — it is the fifth generated point for every board size — so on
the 19×19 board the centre marker lands on `(9, 9)` and not on the true
centre `(10, 10)`. -/
theorem c9_center_star_point_truncated :
    (∀ n : ℕ, (gen_star_points n)[4]? = some (Coords.from' (n / 2) (n / 2))) ∧
    (19 : ℕ) / 2 = 9 ∧
    Coords.from' 9 9 ∈ gen_star_points 19 ∧
    Coords.from' 10 10 ∉ gen_star_points 19 := by
  refine ⟨?_, by norm_num, by decide, by decide⟩
  intro n
  unfold gen_star_points
  split <;> split <;> rfl

/-- Sample instantiation of `c9_center_star_point_truncated` at board
size 19. -/
theorem c9_center_star_point_witness :
    (gen_star_points 19)[4]? = some (Coords.from' (19 / 2) (19 / 2)) :=
  c9_center_star_point_truncated.1 19

/-- C10: `parse_input_coords` is total and validates nothing against the
board size: the column is `some (get_column_number c)` exactly for the
first character `c` of a non-empty input, the row is the result of the
Rust `u8` parse of the remaining characters (`none` when that parse
fails — never an error), and out-of-board rows such as 0 or 99 are
accepted, there being no board-size input at all. -/
theorem c10_parse_input_coords_total (s : String) :
    (parse_input_coords s).col = s.toList.head?.map get_column_number ∧
    (parse_input_coords s).row = parseU8 s.toList.tail.asString ∧
    parse_input_coords "A0" = { row := some 0, col := some 1 } ∧
    parse_input_coords "T99" = { row := some 99, col := some 19 } ∧
    (parse_input_coords "Q4x").row = none ∧
    (parse_input_coords "Q999").row = none := by
  obtain ⟨l⟩ := s
  refine ⟨?_, ?_, by decide, by decide, by decide, by decide⟩
  · rcases l with _ | ⟨c, rest⟩ <;> rfl
  · rcases l with _ | ⟨c, _ | ⟨d, rest⟩⟩ <;> rfl

/-- Sample instantiation of `c10_parse_input_coords_total` at the input
string "B7". -/
theorem c10_parse_input_coords_witness :
    (parse_input_coords "B7").col =
      (String.toList "B7").head?.map get_column_number :=
  (c10_parse_input_coords_total "B7").1

/-- C2, counterexample: typing 'Q' then '4' from the empty Idle buffer
does yield the buffer "Q4", but the stored highlight is
`{row: 4, col: 16}`, not `{row: 4, col: 17}` as claimed —
`get_column_number` sends 'Q' to 16. -/
theorem c2_counterexample_q_is_not_17 :
    (let st1 := ((GoGame.initial 19).update (.charReceived 'Q')).1
     let st2 := (st1.update (.charReceived '4')).1
     st2.next_move_input = "Q4" ∧
     st2.board.map Board.highlight_coords =
       some { row := some 4, col := some 16 } ∧
     (st2.update (.keyReleased .enter)).2 =
       some (.playMoveCmd (Coords.from' 4 16) .black)) ∧
    get_column_number 'Q' = 16 ∧
    ¬ get_column_number 'Q' = 17 ∧
    ¬ Coords.from' 4 16 = Coords.from' 4 17 := by
  exact ⟨⟨rfl, rfl, rfl⟩, rfl, by decide, by decide⟩

/-- C2, amended: starting from an empty pending-input buffer in the Idle
state on a 19×19 board, entering 'Q' then '4' yields the coordinate
buffer "Q4" and stores `Coords{row: 4, col: 16}` as the highlight (the
column-letter mapping sends 'Q' to 16); committing with Enter submits the
play for `Coords{row: 4, col: 16}`, moves to Loading and clears the
buffer. -/
theorem c2_amended_q_maps_to_16 :
    (let st0 := GoGame.initial 19
    let st1 := (st0.update (.charReceived 'Q')).1
    let st2 := (st1.update (.charReceived '4')).1
    let committed := st2.update (.keyReleased .enter)
    st0.next_move_input = "" ∧ st0.gtp_status = .idle ∧
    st1.next_move_input = "Q" ∧
    st2.next_move_input = "Q4" ∧
    st2.board.map Board.highlight_coords =
      some { row := some 4, col := some 16 } ∧
    st2.board.map Board.get_valid_highlight_coords =
      some (some (Coords.from' 4 16)) ∧
    committed.2 = some (.playMoveCmd (Coords.from' 4 16) .black) ∧
    committed.1.gtp_status = .loading ∧
    committed.1.next_move_input = "" ∧
    get_column_number 'Q' = 16) := by
  exact ⟨rfl, rfl, rfl, rfl, rfl, rfl, rfl, rfl, rfl, rfl⟩

/-- C3, counterexample: the store built by `BoardTableActor::new` has a
clear dirty flag, and the mutating `SetNextMoveInput` handler leaves the
flag clear — so not every mutating store operation sets the dirty flag. -/
theorem c3_counterexample_set_input_not_dirty :
    (BoardTableActor.new 5 Theme.default').refresh_ui_request = false ∧
    (handleSetNextMoveInput (BoardTableActor.new 5 Theme.default')
        "Q").refresh_ui_request = false :=
  ⟨rfl, rfl⟩

/-- C3, amended: replacing either stone collection and setting the
highlight coordinates set the store's dirty flag; setting the pending
move-input text leaves the flag unchanged (it is not part of the row
layout); and among all store operations only the render-layout read
(`GetTuiRowsMessage`), which recomputes when dirty, ever clears the
flag. -/
theorem c3_amended_dirty_flag_discipline (a : BoardTableActor)
    (stones : List Stone) (coords : OptCoords) (text : String) :
    (handleSetWhiteStones a stones).refresh_ui_request = true ∧
    (handleSetBlackStones a stones).refresh_ui_request = true ∧
    (handleSetHightlightCoords a coords).refresh_ui_request = true ∧
    (handleSetNextMoveInput a text).refresh_ui_request =
      a.refresh_ui_request ∧
    (handleGetTuiRows a).2.1.refresh_ui_request = false ∧
    (∀ op : TableOp, (applyTableOp op a).refresh_ui_request = false →
      a.refresh_ui_request = false ∨ op = .getTuiRows) := by
  refine ⟨rfl, rfl, rfl, rfl, ?_, ?_⟩
  · by_cases h : a.refresh_ui_request <;>
      simp [handleGetTuiRows, h, BoardTableActor.refresh_ui_rows]
  · intro op
    cases op <;>
      simp [applyTableOp, handleSetWhiteStones, handleSetBlackStones,
        handleSetHightlightCoords, handleSetNextMoveInput]

/-- Sample instantiation of `c3_amended_dirty_flag_discipline`: setting
the highlight on a fresh 3×3 store raises the dirty flag. -/
theorem c3_amended_dirty_flag_witness :
    (handleSetHightlightCoords (BoardTableActor.new 3 Theme.default')
        { row := some 1, col := some 1 }).refresh_ui_request = true :=
  (c3_amended_dirty_flag_discipline (BoardTableActor.new 3 Theme.default')
    [] { row := some 1, col := some 1 } "").2.2.1

/-- C7: the render-layout read recomputes exactly when the dirty flag is
set.  After the two stone collections are replaced, the next read
recomputes the layout from the new stones and caches it; a second read
with no intervening mutation returns the identical rows and leaves the
state untouched (no recomputation).  The final conjunct exhibits the
recomputed layout reflecting a newly set stone: on a fresh 5×5 store, a
black stone at `(2, 3)` appears in the row-2 line at the column-3 cell
with the theme's stone glyph. -/
theorem c7_render_layout_recompute_iff_dirty (a : BoardTableActor)
    (white black : List Stone) :
    let a1 := handleSetBlackStones (handleSetWhiteStones a white) black
    let r1 := handleGetTuiRows a1
    let r2 := handleGetTuiRows r1.2.1
    a1.white_stones = white ∧ a1.black_stones = black ∧
    r1.2.2 = true ∧
    r1.1 = a1.computeBoardRows.map BoardRow.toTuiRow ∧
    r1.2.1.rows = a1.computeBoardRows ∧
    r2.2.2 = false ∧ r2.1 = r1.1 ∧ r2.2.1 = r1.2.1 ∧
    (∀ st : BoardTableActor,
      (handleGetTuiRows st).2.2 = st.refresh_ui_request) ∧
    (let demo := handleSetBlackStones
        (handleSetWhiteStones (BoardTableActor.new 5 Theme.default') [])
        [{ color := .black, row := 2, col := 3 }]
     let post := (handleGetTuiRows demo).2.1
     (post.rows[4]?.bind fun r => r.cells[6]?).map BoardCell.stone =
       some (some { color := .black, row := 2, col := 3 }) ∧
     (post.rows[4]?.bind fun r => r.cells[6]?).map BoardCell.cell_text =
       some Theme.default'.black_stone_char) := by
  exact ⟨rfl, rfl, rfl, rfl, rfl, rfl, rfl, rfl, fun st => rfl, rfl, rfl⟩

/-- Sample instantiation of `c7_render_layout_recompute_iff_dirty` on a
fresh 3×3 store with one white stone. -/
theorem c7_render_layout_witness :
    let a1 := handleSetBlackStones
      (handleSetWhiteStones (BoardTableActor.new 3 Theme.default')
        [{ color := .white, row := 1, col := 1 }]) []
    (handleGetTuiRows a1).2.2 = true :=
  (c7_render_layout_recompute_iff_dirty (BoardTableActor.new 3 Theme.default')
    [{ color := .white, row := 1, col := 1 }] []).2.2.1

/-- C1, counterexample: in the commit flow of the shipped actix snapshot
(`board_controller.rs`, the `Key::Char('\n')` arm), with every engine call
succeeding, the play succeeds yet `gen_move` is issued to the engine with
no completed `list_stones` of either colour before it — `GenMoveMessage`
is `do_send`-enqueued right behind `PlayMessage`, before the refresh
handler can even issue its `list_stones` queries. -/
theorem c1_counterexample_genmove_before_lists :
    MEv.completed .play true ∈ (runCommit ⟨true, true, true, true⟩ "Q4").log ∧
    ¬ listsCompleteBeforeGenMove
        (runCommit ⟨true, true, true, true⟩ "Q4").log := by
  unfold listsCompleteBeforeGenMove
  decide

/-- C1, amended: for every engine success/failure behaviour, the engine
processes the commit's `play` first and `gen_move` immediately second,
before any `list_stones` is issued; every triggered refresh issues exactly
one `list_stones` per colour, the commit itself triggering one refresh and
each of a successful `play` and a successful `gen_move` triggering exactly
one more (so a successful play still leads to exactly two `list_stones`
calls of its own, but they are issued after `gen_move`, not before). -/
theorem c1_amended_genmove_issued_before_refresh :
    (∀ p g lw lb : Bool,
      let log := (runCommit ⟨p, g, lw, lb⟩ "Q4").log
      log[0]? = some (.issued .play) ∧
      log[1]? = some (.completed .play p) ∧
      log[2]? = some (.issued .genmove) ∧
      log[3]? = some (.completed .genmove g) ∧
      (∀ i < log.length,
        (log[i]? = some (.issued .listW) ∨ log[i]? = some (.issued .listB)) →
          2 < i) ∧
      log.count (.issued .listW) =
        1 + (if p then 1 else 0) + (if g then 1 else 0) ∧
      log.count (.issued .listB) =
        1 + (if p then 1 else 0) + (if g then 1 else 0)) := by
  decide

/-- Sample instantiation of `c1_amended_genmove_issued_before_refresh`
with the all-success engine behaviour. -/
theorem c1_amended_genmove_witness :
    ((runCommit ⟨true, true, true, true⟩ "Q4").log)[0]? =
      some (.issued .play) :=
  (c1_amended_genmove_issued_before_refresh true true true true).1

/-- C5: the claim's guarded commit holds in the iced snapshot
(`gogame.rs` issues `play` exactly when the highlight is fully specified,
then moves to Loading and clears the input, and does nothing otherwise),
but the shipped actix snapshot contradicts it: its `'\n'` handler
`unwrap`s the `OptCoords → Coords` conversion, so pressing Enter with an
incomplete highlight (only the column letter "Q" typed) panics the
controller before any engine command is issued. -/
theorem c5_commit_guard_and_controller_panic :
    (runCommit ⟨true, true, true, true⟩ "Q").panicked = true ∧
    (runCommit ⟨true, true, true, true⟩ "Q").log = [] ∧
    (runCommit ⟨true, true, true, true⟩ "Q").engQ = [] ∧
    (∀ st : GoGame, ∀ b : Board,
      st.gtp_status = .idle → st.board = some b →
      match b.highlight_coords with
      | { row := some r, col := some c } =>
        (st.update (.keyReleased .enter)).2 =
          some (.playMoveCmd (Coords.from' r c) st.player_color) ∧
        (st.update (.keyReleased .enter)).1.gtp_status = .loading ∧
        (st.update (.keyReleased .enter)).1.next_move_input = ""
      | _ =>
        (st.update (.keyReleased .enter)).2 = none ∧
        (st.update (.keyReleased .enter)).1 = st) := by
  refine ⟨by decide, by decide, by decide, ?_⟩
  intro st b h1 h2
  obtain ⟨se, bd, inp, pc, gs, ge⟩ := st
  simp only at h1 h2
  subst h1
  subst h2
  obtain ⟨bs, ncs, sp, ws, bks, hl⟩ := b
  obtain ⟨hrow, hcol⟩ := hl
  cases hrow <;> cases hcol <;>
    simp [GoGame.update, GoGame.updateKeyReleased,
      Board.get_valid_highlight_coords, GoGame.refresh_highlight_coords,
      Board.setHighlightCoords, Coords.from']

/-- C4: error atomicity of the commit chain in the iced snapshot.  When
the chain behind a commit (`play`, `list_stones` × 2, then `gen_move`,
`list_stones` × 2) fails at any call — timeouts are failures like any
other — the coordinator ends in the `Error` state with the failure
message retained, and the board's stone collections are exactly their
last successfully fetched values: the initial ones when the play round
failed anywhere, and the play round's pair when only the gen-move round
failed; no partial update from a failed round is ever applied.  When
every call succeeds the coordinator returns to `Idle` with the final
fetched pair. -/
theorem c4_error_atomicity (st : GoGame) (bd : Board) (r c : ℕ)
    (oracle : GtpOracle)
    (h1 : st.gtp_status = .idle) (h2 : st.board = some bd)
    (h3 : bd.highlight_coords = { row := some r, col := some c }) :
    match play_move oracle 0 st.player_color (Coords.from' r c) with
    | .error e =>
      (commitRound st oracle).gtp_status = .error ∧
      (commitRound st oracle).gtp_error = some e ∧
      (commitRound st oracle).board.map Board.white_stones =
        some bd.white_stones ∧
      (commitRound st oracle).board.map Board.black_stones =
        some bd.black_stones
    | .ok (b1, w1) =>
      match gen_next_move oracle 3 st.player_color with
      | .error e =>
        (commitRound st oracle).gtp_status = .error ∧
        (commitRound st oracle).gtp_error = some e ∧
        (commitRound st oracle).board.map Board.white_stones = some w1 ∧
        (commitRound st oracle).board.map Board.black_stones = some b1
      | .ok (b2, w2) =>
        (commitRound st oracle).gtp_status = .idle ∧
        (commitRound st oracle).board.map Board.white_stones = some w2 ∧
        (commitRound st oracle).board.map Board.black_stones = some b2 := by
  obtain ⟨se, bd0, inp, pc, gs, ge⟩ := st
  simp only at h1 h2 ⊢
  subst h1
  subst h2
  have hcommit := update_enter_commit_eq se bd inp pc ge r c h3
  rcases hp : play_move oracle 0 pc (Coords.from' r c) with e | ⟨b1, w1⟩
  · simp only [commitRound, hcommit, drive, runGCmd, hp]
    simp [GoGame.update, Board.setHighlightCoords]
  · rcases hg : gen_next_move oracle 3 pc with e | ⟨b2, w2⟩ <;>
      simp only [commitRound, hcommit, drive, runGCmd, hp, hg] <;>
      simp [GoGame.update, Board.set_stones, Board.setHighlightCoords]

/-- Sample instantiation of `c4_error_atomicity`: with an engine whose
third call (the white `list_stones` of the play round) times out, the
commit from a fresh 19×19 Idle state with highlight `{row: 4, col: 16}`
ends in the `Error` state with the initial (empty) stone lists intact. -/
theorem c4_error_atomicity_witness :
    let bd := (Board.new 19).setHighlightCoords { row := some 4, col := some 16 }
    let st : GoGame :=
      { should_exit := none, board := some bd, next_move_input := "Q4",
        player_color := .black, gtp_status := .idle, gtp_error := none }
    let oracle : GtpOracle := fun k _ =>
      if k = 2 then .error "timeout" else .ok []
    (commitRound st oracle).gtp_status = .error ∧
    (commitRound st oracle).gtp_error = some "timeout" ∧
    (commitRound st oracle).board.map Board.white_stones = some [] ∧
    (commitRound st oracle).board.map Board.black_stones = some [] := by
  have h := c4_error_atomicity
    { should_exit := none,
      board := some ((Board.new 19).setHighlightCoords
        { row := some 4, col := some 16 }),
      next_move_input := "Q4", player_color := .black, gtp_status := .idle,
      gtp_error := none }
    ((Board.new 19).setHighlightCoords { row := some 4, col := some 16 })
    4 16 (fun k _ => if k = 2 then .error "timeout" else .ok []) rfl rfl rfl
  simpa using h

/-- Sample instantiation of the guarded-commit part of
`c5_commit_guard_and_controller_panic` at a 19×19 state with the complete
highlight `{row: 4, col: 16}`. -/
theorem c5_commit_guard_witness :
    let b := (Board.new 19).setHighlightCoords { row := some 4, col := some 16 }
    let st : GoGame :=
      { should_exit := none, board := some b, next_move_input := "Q4",
        player_color := .black, gtp_status := .idle, gtp_error := none }
    (st.update (.keyReleased .enter)).2 =
      some (.playMoveCmd (Coords.from' 4 16) st.player_color) ∧
    (st.update (.keyReleased .enter)).1.gtp_status = .loading ∧
    (st.update (.keyReleased .enter)).1.next_move_input = "" := by
  have h := c5_commit_guard_and_controller_panic.2.2.2
    { should_exit := none,
      board := some ((Board.new 19).setHighlightCoords
        { row := some 4, col := some 16 }),
      next_move_input := "Q4", player_color := .black, gtp_status := .idle,
      gtp_error := none }
    ((Board.new 19).setHighlightCoords { row := some 4, col := some 16 })
    rfl rfl
  simpa using h

end GogameTerm
